import Mathlib

/-!
Verification of the e-commerce backend (`src/main.py`) against its
natural-language specification.

The embedding is shallow: Python dictionaries become association lists
with unique keys (`Doc`), the Mongo database handle becomes an explicit
`DB` state record threaded through the handlers, HTTP exceptions become
an `Except` error component, and each route handler becomes a pure Lean
function.  The files `schemas.py` and `database.py` are imported by
`main.py` but are not part of the provided sources; the definitions that
stand in for them are marked `Modelled from the spec:` and follow the
specification text (sections 3, 4.1 and 4.2) word by word.
-/

namespace ECom

/-- A JSON-like value as stored in a document: strings, integers,
numbers with a fractional part (Python floats, modelled as rationals
since the program never computes with them), booleans, the storage
native `ObjectId`, arrays and nested documents. -/
inductive Value where
  | str (s : String)
  | int (n : Int)
  | num (q : Rat)
  | bool (b : Bool)
  | objId (n : Nat)
  | arr (vs : List Value)
  | doc (fields : List (String × Value))

/-- A document: a Python `dict` with string keys, in insertion order. -/
abbrev Doc := List (String × Value)

/-- `k in d` on a Python dict. -/
def docHasKey (d : Doc) (k : String) : Bool :=
  d.any (fun kv => kv.1 = k)

/-- `d[k]` lookup on a Python dict (first, and with unique keys the
only, binding of `k`). -/
def docGet (d : Doc) (k : String) : Option Value :=
  (d.find? (fun kv => kv.1 = k)).map (fun kv => kv.2)

/-- `d.pop(k)`: remove the binding of `k`. -/
def docErase (d : Doc) (k : String) : Doc :=
  d.filter (fun kv => kv.1 ≠ k)

/-- `d[k] = v`: overwrite in place when the key exists, append to the
end otherwise (Python dicts keep insertion order). -/
def docSet (d : Doc) (k : String) (v : Value) : Doc :=
  if docHasKey d k then
    d.map (fun kv => if kv.1 = k then (k, v) else kv)
  else
    d ++ [(k, v)]

/-- Python `str()` applied to a stored value.  The program only ever
applies it to the `ObjectId` stored under `"_id"`; the stand-in for the
hexadecimal rendering of an `ObjectId` is the decimal rendering of the
counter that models it. -/
def valueStr : Value → String
  | .str s => s
  | .int n => toString n
  | .num q => toString q
  | .bool b => if b then "True" else "False"
  | .objId n => toString n
  | .arr _ => "<array>"
  | .doc _ => "<document>"

/-- `_serialize` from `src/main.py`: convert Mongo ObjectId to string
and return a clean dict.  Empty input is returned as is; otherwise, when
`"_id"` is present it is popped and its string form stored under
`"id"`. -/
def serialize (doc : Doc) : Doc :=
  if doc.isEmpty then doc
  else
    match docGet doc "_id" with
    | some v => docSet (docErase doc "_id") "id" (Value.str (valueStr v))
    | none => doc

/-- Modelled from the spec: `schemas.py` is not under `src/`.  Section 3:
an Order line item "references a product identifier and carries a
quantity (integer, must be > 0 — enforced by the service before
persistence, not by the schema itself)", so the schema itself admits any
integer quantity. -/
structure OrderItem where
  product_id : String
  quantity : Int
deriving DecidableEq, Repr

/-- Modelled from the spec: `schemas.py` is not under `src/`.  Section 3:
an Order is an "ordered sequence of line items". -/
structure Order where
  items : List OrderItem
deriving DecidableEq, Repr

/-- Modelled from the spec: `schemas.py` is not under `src/`.  Section 3:
a Product has "title (text), description (text), price (non-negative
number), category (text), in_stock (boolean), image (URL text)". -/
structure Product where
  title : String
  description : String
  price : Rat
  category : String
  in_stock : Bool
  image : String

/-- `Product(**p).model_dump()`: the normalized record, fields in schema
declaration order. -/
def Product.model_dump (p : Product) : Doc :=
  [("title", .str p.title),
   ("description", .str p.description),
   ("price", .num p.price),
   ("category", .str p.category),
   ("in_stock", .bool p.in_stock),
   ("image", .str p.image)]

def OrderItem.model_dump (i : OrderItem) : Doc :=
  [("product_id", .str i.product_id),
   ("quantity", .int i.quantity)]

def Order.model_dump (o : Order) : Doc :=
  [("items", .arr (o.items.map (fun i => .doc i.model_dump)))]

/-- Modelled from the spec: `database.py` is not under `src/`.  The
storage state: the two collections named in section 6 ("two collections,
`product` and `order`") plus the counter that generates the "storage
assigned identifier". -/
structure DB where
  product : List Doc
  order : List Doc
  nextId : Nat

/-- String form of a generated identifier (`str(ObjectId)`). -/
def objIdStr (n : Nat) : String := toString n

/-- Membership of a collection, by name. -/
def DB.coll (db : DB) (c : String) : List Doc :=
  if c = "product" then db.product
  else if c = "order" then db.order
  else []

/-- Modelled from the spec: `database.py` is not under `src/`.  Section
4.2: `insert(collectionName, record) -> generatedId` "stores one record,
returns a newly assigned unique identifier (string form)". -/
def create_document (db : DB) (c : String) (d : Doc) : String × DB :=
  let oid := db.nextId
  let stored : Doc := ("_id", Value.objId oid) :: d
  (objIdStr oid,
   { product := if c = "product" then db.product ++ [stored] else db.product,
     order := if c = "order" then db.order ++ [stored] else db.order,
     nextId := oid + 1 })

/-- Modelled from the spec: `database.py` is not under `src/`.  Section
4.2: `fetchAll(collectionName)` "returns every record currently in the
named collection, each tagged with its generated identifier". -/
def get_documents (db : DB) (c : String) : List Doc :=
  db.coll c

/-- `db[c].count_documents(\x7b\x7d)` — section 4.2: "returns the number
of records in a collection". -/
def count_documents (db : DB) (c : String) : Nat :=
  (db.coll c).length

/-- `db[c].insert_many(docs)`: insert each record in turn, each getting
a fresh generated identifier. -/
def insert_many (db : DB) (c : String) (ds : List Doc) : DB :=
  ds.foldl (fun acc d => (create_document acc c d).2) db

/-- The four fixed sample products of `_ensure_seed_products`
(`src/main.py` lines 46-79), already in `Product` form since their
schema validation always succeeds. -/
def sample_products : List Product :=
  [{ title := "Classic Tee",
     description := "Soft cotton tee in a relaxed fit.",
     price := (1999 : Rat) / 100,
     category := "Apparel",
     in_stock := true,
     image := "https://images.unsplash.com/photo-1512436991641-6745cdb1723f?w=800&q=80&auto=format&fit=crop" },
   { title := "Canvas Sneakers",
     description := "Everyday low-top sneakers with cushioned soles.",
     price := (49 : Rat),
     category := "Shoes",
     in_stock := true,
     image := "https://images.unsplash.com/photo-1528701800489-20beeb13d1d1?w=800&q=80&auto=format&fit=crop" },
   { title := "Leather Backpack",
     description := "Durable backpack with laptop sleeve.",
     price := (895 : Rat) / 10,
     category := "Bags",
     in_stock := true,
     image := "https://images.unsplash.com/photo-1521133573892-e44906baee46?w=800&q=80&auto=format&fit=crop" },
   { title := "Aviator Sunglasses",
     description := "UV400 protection with classic metal frame.",
     price := (2995 : Rat) / 100,
     category := "Accessories",
     in_stock := true,
     image := "https://images.unsplash.com/photo-1511499767150-a48a237f0083?w=800&q=80&auto=format&fit=crop" }]

/-- `_ensure_seed_products` from `src/main.py` for the case where the
database handle is present (the `db is None` early return is the `none`
branch of the callers): seed the product collection with the four sample
products when its count is exactly zero. -/
def ensure_seed_products (db : DB) : DB :=
  if count_documents db "product" = 0 then
    insert_many db "product" (sample_products.map Product.model_dump)
  else db

/-- The hardcoded static fallback record of `list_products`
(`src/main.py` lines 89-99). -/
def fallback_product : Doc :=
  [("id", .str "demo-1"),
   ("title", .str "Classic Tee"),
   ("description", .str "Soft cotton tee in a relaxed fit."),
   ("price", .num ((1999 : Rat) / 100)),
   ("category", .str "Apparel"),
   ("in_stock", .bool true),
   ("image", .str "https://images.unsplash.com/photo-1512436991641-6745cdb1723f?w=800&q=80&auto=format&fit=crop")]

/-- `GET /api/products` (`list_products` in `src/main.py`): with no
database handle, return the static fallback; otherwise seed if empty,
fetch all products and serialize each.  The second component is the
storage state after the call (`none` models `db is None` for the whole
process lifetime). -/
def list_products (st : Option DB) : List Doc × Option DB :=
  match st with
  | none => ([fallback_product], none)
  | some db =>
    let db1 := ensure_seed_products db
    ((get_documents db1 "product").map serialize, some db1)

/-- An HTTP error response raised by a handler (`HTTPException`). -/
structure HTTPErr where
  status_code : Nat
  detail : String
deriving DecidableEq, Repr

/-- The success body of `POST /api/orders`. -/
structure CreateOrderResp where
  order_id : String
  status : String
deriving DecidableEq, Repr

/-- `POST /api/orders` (`create_order` in `src/main.py`): 503 when the
database handle is absent; 400 when the item list is empty or any
quantity is ≤ 0; otherwise persist the order and answer
`\x7border_id, status: "received"\x7d`.  The second component is the
storage state after the call. -/
def create_order (st : Option DB) (o : Order) :
    Except HTTPErr CreateOrderResp × Option DB :=
  match st with
  | none => (.error ⟨503, "Database not available"⟩, none)
  | some db =>
    if o.items.isEmpty || o.items.any (fun i => i.quantity ≤ 0) then
      (.error ⟨400, "Invalid order items"⟩, some db)
    else
      let r := create_document db "order" o.model_dump
      (.ok ⟨r.1, "received"⟩, some (r.2))

/-- The observable state of the database handle as seen by the `/test`
handler: either `db is None`, or a connection with an optional `name`
attribute and a `list_collection_names()` call that either returns a
list of names or raises an exception with the given message. -/
inductive DBConn where
  | noDb
  | conn (name : Option String) (listNames : Except String (List String))

/-- The process environment as read by `/test`: `os.getenv` for
`DATABASE_URL` and `DATABASE_NAME` (a set-but-empty variable is falsy in
Python, hence kept as `Option String`). -/
structure Env where
  database_url : Option String
  database_name : Option String

/-- Python truthiness of an `os.getenv` result. -/
def envTruthy : Option String → Bool
  | none => false
  | some s => s ≠ ""

/-- The response body of `GET /test`.  The `database_url` and
`database_name` fields start out as `None`, hence `Option String`. -/
structure TestResp where
  backend : String
  database : String
  database_url : Option String
  database_name : Option String
  connection_status : String
  collections : List String
deriving DecidableEq, Repr

/-- `GET /test` (`test_database` in `src/main.py`): build the diagnostic
response following the source line by line.  The initial record, the
branch on the handle, the inner try around `list_collection_names`, and
the final unconditional overwrite of `database_url` and `database_name`
from the environment variables.  The outer `except` branch has no
raising statement left to model (the only raising call is already
guarded by the inner try), so it is unreachable here. -/
def test_database (c : DBConn) (env : Env) : TestResp :=
  let r : TestResp :=
    { backend := "✅ Running",
      database := "❌ Not Available",
      database_url := none,
      database_name := none,
      connection_status := "Not Connected",
      collections := [] }
  let r : TestResp :=
    match c with
    | .noDb => { r with database := "⚠️  Available but not initialized" }
    | .conn name listNames =>
      let r : TestResp :=
        { r with
          database := "✅ Available",
          database_url := some "✅ Configured",
          database_name := some (name.getD "✅ Connected"),
          connection_status := "Connected" }
      match listNames with
      | .ok cols =>
        { r with collections := cols.take 10,
                 database := "✅ Connected & Working" }
      | .error e =>
        { r with database := "⚠️  Connected but Error: " ++ e.take 50 }
  { r with
    database_url := some (if envTruthy env.database_url then "✅ Set" else "❌ Not Set"),
    database_name := some (if envTruthy env.database_name then "✅ Set" else "❌ Not Set") }

/-- An order payload passes the check at `src/main.py` line 112 exactly
when its item list is non-empty and every quantity is positive.  This is
also the invariant of section 3 of the spec. -/
def ValidOrder (o : Order) : Prop :=
  o.items ≠ [] ∧ ∀ i ∈ o.items, 0 < i.quantity

instance : DecidablePred ValidOrder := fun _ =>
  inferInstanceAs (Decidable (_ ∧ _))

/-- One API call, as a state transition on the storage state.  The
read-only routes (`/`, `/api/health`, `/test`) never touch storage, so
their transitions are identities; the two storage-touching routes step
to the state their handler returns. -/
inductive Step : Option DB → Option DB → Prop where
  | root (st : Option DB) : Step st st
  | health (st : Option DB) : Step st st
  | testDb (st : Option DB) : Step st st
  | listProducts (st : Option DB) : Step st (list_products st).2
  | createOrder (st : Option DB) (o : Order) : Step st (create_order st o).2

/-- The storage state at process start: either no connection at all, or
a connection to a fresh (empty) store. -/
def InitState (st : Option DB) : Prop :=
  st = none ∨ st = some ⟨[], [], 0⟩

/-- A storage state the running service can reach from a fresh store by
any sequence of API calls. -/
def Reachable (st : Option DB) : Prop :=
  ∃ st₀, InitState st₀ ∧ Relation.ReflTransGen Step st₀ st

/-- Every document in the order collection is the persisted form of a
schema-level `Order` that passed the positivity check: tagged with its
generated identifier and otherwise exactly the model dump of a valid
order. -/
def OrderInv (st : Option DB) : Prop :=
  ∀ db, st = some db → ∀ d ∈ db.order,
    ∃ (o : Order) (oid : Nat),
      ValidOrder o ∧ d = ("_id", Value.objId oid) :: o.model_dump

/-! ### Helper lemmas on documents -/

lemma docHasKey_false_iff (d : Doc) (k : String) :
    docHasKey d k = false ↔ ∀ kv ∈ d, kv.1 ≠ k := by
  simp [docHasKey]

lemma docGet_eq_none_of_not_hasKey (d : Doc) (k : String)
    (h : docHasKey d k = false) : docGet d k = none := by
  rw [docHasKey_false_iff] at h
  have hf : d.find? (fun kv => kv.1 = k) = none := by
    rw [List.find?_eq_none]
    intro kv hkv
    simpa using h kv hkv
  simp [docGet, hf]

lemma docErase_eq_self (d : Doc) (k : String) (h : docHasKey d k = false) :
    docErase d k = d := by
  rw [docHasKey_false_iff] at h
  exact List.filter_eq_self.mpr (by intro kv hkv; simpa using h kv hkv)

lemma docHasKey_docErase_false (d : Doc) (j k : String)
    (h : docHasKey d k = false) : docHasKey (docErase d j) k = false := by
  rw [docHasKey_false_iff] at h ⊢
  intro kv hkv
  exact h kv (List.mem_of_mem_filter hkv)

/-! ### Theorems for the claims -/

/-- C9: `_serialize` on an input that is empty or lacks the `"_id"` key
returns the input unchanged: no `id` key is added and no field is
modified. -/
theorem serialize_id_absent (d : Doc)
    (h : d = [] ∨ docHasKey d "_id" = false) : serialize d = d := by
  rcases h with h | h
  · subst h; rfl
  · unfold serialize
    by_cases he : d.isEmpty
    · rw [if_pos he]
    · rw [if_neg he, docGet_eq_none_of_not_hasKey d "_id" h]

/-- Closed instance of `serialize_id_absent`: a non-empty record with no
`"_id"` key passes through `_serialize` untouched. -/
theorem serialize_id_absent_witness :
    serialize [("title", Value.str "Classic Tee")]
      = [("title", Value.str "Classic Tee")] :=
  serialize_id_absent [("title", Value.str "Classic Tee")]
    (Or.inr (by decide))

/-- C4: on a record carrying the storage-native identifier field `"_id"`
(and, as for every stored record, no `"id"` field), `_serialize` removes
`"_id"` and appends `"id"` bound to the string form of the identifier;
the remaining fields — the filter keeps every binding whose key is not
`"_id"`, in order — pass through unchanged. -/
theorem serialize_moves_id (d : Doc) (v : Value)
    (h1 : docGet d "_id" = some v) (h2 : docHasKey d "id" = false) :
    serialize d = docErase d "_id" ++ [("id", Value.str (valueStr v))] := by
  have hne : d.isEmpty = false := by
    cases d with
    | nil => simp [docGet] at h1
    | cons a l => rfl
  unfold serialize
  rw [hne, h1]
  simp only [Bool.false_eq_true, if_false]
  unfold docSet
  rw [docHasKey_docErase_false d "_id" "id" h2]
  simp

/-- Closed instance of `serialize_moves_id`, at a stored product-shaped
record. -/
theorem serialize_moves_id_witness :
    serialize [("_id", Value.objId 7), ("title", Value.str "Classic Tee")]
      = [("title", Value.str "Classic Tee"), ("id", Value.str "7")] := by
  have h := serialize_moves_id
    [("_id", Value.objId 7), ("title", Value.str "Classic Tee")]
    (Value.objId 7) (by rfl) (by decide)
  simpa [docErase, valueStr] using h

/-- C6: with no database connection, `POST /api/orders` answers the 503
`HTTPException` of `src/main.py` line 109 for every payload — the
availability check runs before the item validation, so even an order
with an empty item list or non-positive quantities gets the 503, and the
(absent) storage is left as is. -/
theorem create_order_no_db (o : Order) :
    create_order none o = (.error ⟨503, "Database not available"⟩, none) :=
  rfl

/-- C7: with no database connection, `GET /api/products` does not fail
and does not touch storage: it returns exactly the one hardcoded
fallback record. -/
theorem list_products_no_db :
    list_products none = ([fallback_product], none)
      ∧ (list_products none).1.length = 1 :=
  ⟨rfl, rfl⟩

/-- C1: with the database available, an order payload whose item list is
empty or that contains an item with quantity ≤ 0 is rejected with the
400 `HTTPException` of `src/main.py` line 113, and the storage state is
returned unchanged — no order record is persisted. -/
theorem create_order_rejects_invalid (db : DB) (o : Order)
    (h : o.items = [] ∨ ∃ i ∈ o.items, i.quantity ≤ 0) :
    create_order (some db) o = (.error ⟨400, "Invalid order items"⟩, some db) := by
  have hc : (o.items.isEmpty || o.items.any (fun i => i.quantity ≤ 0)) = true := by
    rcases h with h | ⟨i, hi, hq⟩
    · simp [h]
    · have ha : o.items.any (fun i => i.quantity ≤ 0) = true := by
        rw [List.any_eq_true]
        exact ⟨i, hi, by simpa using hq⟩
      simp [ha]
  simp only [create_order, hc, if_true]

/-- Closed instance of `create_order_rejects_invalid`, at the payload of
the worked example in the spec: one item with quantity 0. -/
theorem create_order_rejects_invalid_witness :
    create_order (some ⟨[], [], 0⟩) ⟨[⟨"x", 0⟩]⟩
      = (.error ⟨400, "Invalid order items"⟩, some ⟨[], [], 0⟩) :=
  create_order_rejects_invalid ⟨[], [], 0⟩ ⟨[⟨"x", 0⟩]⟩ (by decide)

/-! ### The generated identifier string is never empty -/

lemma toDigitsCore_length_ge (b : Nat) :
    ∀ (f n : Nat) (l : List Char), l.length ≤ (Nat.toDigitsCore b f n l).length := by
  intro f
  induction f with
  | zero => intro n l; simp [Nat.toDigitsCore]
  | succ f ih =>
    intro n l
    simp only [Nat.toDigitsCore]
    by_cases h : n / b = 0
    · simp [h]
    · rw [if_neg h]
      calc l.length ≤ (Nat.digitChar (n % b) :: l).length := by simp
        _ ≤ _ := ih (n / b) (Nat.digitChar (n % b) :: l)

lemma toDigits_ne_nil (b n : Nat) : Nat.toDigits b n ≠ [] := by
  have h : 1 ≤ (Nat.toDigits b n).length := by
    unfold Nat.toDigits
    simp only [Nat.toDigitsCore]
    by_cases h : n / b = 0
    · simp [h]
    · rw [if_neg h]
      have := toDigitsCore_length_ge b n (n / b) [Nat.digitChar (n % b)]
      simpa using this
  intro hnil
  rw [hnil] at h
  simp at h

lemma objIdStr_ne_empty (n : Nat) : objIdStr n ≠ "" := by
  intro h
  have hd : Nat.toDigits 10 n = [] := by
    have h2 : (Nat.toDigits 10 n).asString = "" := h
    have := congrArg String.data h2
    simpa [List.asString] using this
  exact toDigits_ne_nil 10 n hd

/-- C2: with the database available, an order payload with a non-empty
item list and all quantities > 0 is accepted: the handler persists it
and answers a body whose `status` is the string `"received"` and whose
`order_id` is a non-empty string (the generated identifier). -/
theorem create_order_accepts_valid (db : DB) (o : Order)
    (h1 : o.items ≠ []) (h2 : ∀ i ∈ o.items, 0 < i.quantity) :
    ∃ (r : CreateOrderResp) (db' : DB),
      create_order (some db) o = (.ok r, some db')
        ∧ r.status = "received" ∧ r.order_id ≠ "" := by
  have hc : (o.items.isEmpty || o.items.any (fun i => i.quantity ≤ 0)) = false := by
    rw [Bool.or_eq_false_iff]
    constructor
    · simpa using h1
    · rw [List.any_eq_false]
      intro i hi
      simpa using h2 i hi
  refine ⟨⟨objIdStr db.nextId, "received"⟩,
          (create_document db "order" o.model_dump).2, ?_, rfl, objIdStr_ne_empty _⟩
  simp only [create_order, hc, Bool.false_eq_true, if_false]
  rfl

/-- Closed instance of `create_order_accepts_valid`: a one-item order
with quantity 1 on a fresh store. -/
theorem create_order_accepts_valid_witness :
    ∃ (r : CreateOrderResp) (db' : DB),
      create_order (some ⟨[], [], 0⟩) ⟨[⟨"x", 1⟩]⟩ = (.ok r, some db')
        ∧ r.status = "received" ∧ r.order_id ≠ "" :=
  create_order_accepts_valid ⟨[], [], 0⟩ ⟨[⟨"x", 1⟩]⟩ (by decide) (by decide)

/-! ### Seeding lemmas -/

lemma insert_many_order (db : DB) (ds : List Doc) :
    (insert_many db "product" ds).order = db.order := by
  induction ds generalizing db with
  | nil => rfl
  | cons d ds ih =>
    simp only [insert_many, List.foldl_cons] at *
    rw [ih]
    rfl

lemma insert_many_product_strip (ds : List Doc) :
    ∀ db : DB, (∀ d ∈ ds, docHasKey d "_id" = false) →
      (insert_many db "product" ds).product.map (fun d => docErase d "_id")
        = db.product.map (fun d => docErase d "_id") ++ ds := by
  induction ds with
  | nil => intro db _; simp [insert_many]
  | cons d ds ih =>
    intro db h
    have hd : docHasKey d "_id" = false := h d (List.mem_cons_self d ds)
    have hrest : ∀ d ∈ ds, docHasKey d "_id" = false :=
      fun d hmem => h d (List.mem_cons_of_mem _ hmem)
    simp only [insert_many, List.foldl_cons]
    have step := ih (create_document db "product" d).2 hrest
    simp only [insert_many] at step
    rw [step]
    have herase : docErase (("_id", Value.objId db.nextId) :: d) "_id" = d := by
      simp only [docErase, List.filter_cons]
      rw [if_neg (by simp)]
      exact docErase_eq_self d "_id" hd
    simp [create_document, herase]

lemma sample_dumps_no_id :
    ∀ d ∈ sample_products.map Product.model_dump, docHasKey d "_id" = false := by
  decide

lemma ensure_seed_noop (db : DB) (h : count_documents db "product" ≠ 0) :
    ensure_seed_products db = db := by
  unfold ensure_seed_products
  rw [if_neg h]

/-- C3: calling `GET /api/products` with storage available and a product
count of exactly zero seeds the collection before the fetch: the
resulting state holds exactly the four fixed sample products (stripping
the generated identifier from each stored record gives back precisely
the four validated sample dumps, in order), and a second sequential call
leaves the state untouched — it inserts nothing further. -/
theorem list_products_seeds_when_empty (db : DB)
    (h : count_documents db "product" = 0) :
    ∃ db1 : DB,
      (list_products (some db)).2 = some db1
        ∧ db1.product.map (fun d => docErase d "_id")
            = sample_products.map Product.model_dump
        ∧ db1.product.length = 4
        ∧ (list_products (some db1)).2 = some db1 := by
  have hnil : db.product = [] := by
    have : db.product.length = 0 := h
    exact List.length_eq_zero.mp this
  have hmap : (ensure_seed_products db).product.map (fun d => docErase d "_id")
      = sample_products.map Product.model_dump := by
    unfold ensure_seed_products
    rw [if_pos h, insert_many_product_strip _ db sample_dumps_no_id, hnil]
    rfl
  have hlen : (ensure_seed_products db).product.length = 4 := by
    have := congrArg List.length hmap
    simpa using this
  have hcount : count_documents (ensure_seed_products db) "product" = 4 := by
    simpa [count_documents, DB.coll] using hlen
  refine ⟨ensure_seed_products db, rfl, hmap, hlen, ?_⟩
  simp only [list_products]
  rw [ensure_seed_noop _ (by rw [hcount]; decide)]

/-- Closed instance of `list_products_seeds_when_empty`, on a fresh
store. -/
theorem list_products_seeds_when_empty_witness :
    ∃ db1 : DB,
      (list_products (some ⟨[], [], 0⟩)).2 = some db1
        ∧ db1.product.map (fun d => docErase d "_id")
            = sample_products.map Product.model_dump
        ∧ db1.product.length = 4
        ∧ (list_products (some db1)).2 = some db1 :=
  list_products_seeds_when_empty ⟨[], [], 0⟩ (by decide)

/-! ### Order-collection invariant -/

lemma ensure_seed_order (db : DB) :
    (ensure_seed_products db).order = db.order := by
  unfold ensure_seed_products
  by_cases h : count_documents db "product" = 0
  · rw [if_pos h, insert_many_order]
  · rw [if_neg h]

lemma step_preserves_OrderInv {st st' : Option DB}
    (hs : Step st st') (h : OrderInv st) : OrderInv st' := by
  cases hs with
  | root => exact h
  | health => exact h
  | testDb => exact h
  | listProducts =>
    cases st with
    | none => exact h
    | some db =>
      intro db' hdb' d hd
      simp only [list_products, Option.some.injEq] at hdb'
      subst hdb'
      rw [ensure_seed_order] at hd
      exact h db rfl d hd
  | createOrder o =>
    cases st with
    | none => exact h
    | some db =>
      by_cases hc : (o.items.isEmpty || o.items.any (fun i => i.quantity ≤ 0)) = true
      · simp only [create_order, hc, if_true]
        exact h
      · intro db' hdb' d hd
        simp only [create_order, hc, Bool.false_eq_true, if_false,
          Option.some.injEq] at hdb'
        subst hdb'
        simp only [create_document, if_true, List.mem_append,
          List.mem_singleton] at hd
        rcases hd with hd | hd
        · exact h db rfl d hd
        · have hvalid : ValidOrder o := by
            have hc2 : (o.items.isEmpty
                || o.items.any (fun i => i.quantity ≤ 0)) = false := by
              simpa using hc
            rw [Bool.or_eq_false_iff] at hc2
            constructor
            · simpa using hc2.1
            · intro i hi
              have := List.any_eq_false.mp hc2.2 i hi
              simpa using this
          exact ⟨o, db.nextId, hvalid, by simpa using hd⟩

/-- C5: every order record ever persisted to the order collection — in
any storage state the service can reach from a fresh store by any
sequence of API calls — is the stored form of an order with a non-empty
item list and all quantities strictly positive; `create_order` is the
only write path to that collection and it establishes the check before
inserting. -/
theorem persisted_orders_valid (st : Option DB) (h : Reachable st) :
    OrderInv st := by
  obtain ⟨st₀, h₀, hsteps⟩ := h
  induction hsteps with
  | refl =>
    rcases h₀ with h₀ | h₀ <;> subst h₀
    · intro db hdb; exact absurd hdb (by simp)
    · intro db hdb d hd
      simp only [Option.some.injEq] at hdb
      subst hdb
      simp at hd
  | tail _ hbc ih => exact step_preserves_OrderInv hbc ih

/-- Closed instance of `persisted_orders_valid`, at the fresh initial
state (reachable by the empty sequence of calls). -/
theorem persisted_orders_valid_witness :
    OrderInv (some ⟨[], [], 0⟩) :=
  persisted_orders_valid (some ⟨[], [], 0⟩)
    ⟨some ⟨[], [], 0⟩, Or.inr rfl, Relation.ReflTransGen.refl⟩

/-! ### The diagnostics endpoint -/

/-- The status strings the `/test` handler can store under `database`
(`src/main.py` lines 124, 133, 140, 142, 144, 147): the fixed labels,
and the two error renderings whose exception text is truncated to 50
characters. -/
def DatabaseStatusString (s : String) : Prop :=
  s = "❌ Not Available"
    ∨ s = "⚠️  Available but not initialized"
    ∨ s = "✅ Available"
    ∨ s = "✅ Connected & Working"
    ∨ (∃ e, s = "⚠️  Connected but Error: " ++ String.take e 50)
    ∨ (∃ e, s = "❌ Error: " ++ String.take e 50)

lemma string_take_length_le (s : String) (n : Nat) :
    (String.take s n).length ≤ n := by
  rw [String.take_eq]
  exact List.length_take_le n s.data

/-- C8: `GET /test` is total — it yields a response for every storage
state and environment instead of failing — with `database` always one of
the defined status strings; when `list_collection_names` raises, the
exception is caught and its text rendered in the body truncated to 50
characters. -/
theorem test_database_total (c : DBConn) (env : Env) :
    DatabaseStatusString (test_database c env).database
      ∧ (∀ name e, c = DBConn.conn name (.error e) →
          (test_database c env).database
              = "⚠️  Connected but Error: " ++ String.take e 50
            ∧ (String.take e 50).length ≤ 50) := by
  constructor
  · cases c with
    | noDb =>
      exact Or.inr (Or.inl rfl)
    | conn name listNames =>
      cases listNames with
      | ok cols => exact Or.inr (Or.inr (Or.inr (Or.inl rfl)))
      | error e =>
        exact Or.inr (Or.inr (Or.inr (Or.inr (Or.inl ⟨e, rfl⟩))))
  · intro name e hce
    subst hce
    exact ⟨rfl, string_take_length_le e 50⟩

/-- Closed instance of `test_database_total`, on a connection whose
`list_collection_names` raises an exception with a 60-character
message. -/
theorem test_database_total_witness :
    DatabaseStatusString
        (test_database
          (DBConn.conn none (.error (String.mk (List.replicate 60 'x'))))
          ⟨none, none⟩).database
      ∧ (test_database
            (DBConn.conn none (.error (String.mk (List.replicate 60 'x'))))
            ⟨none, none⟩).database
          = "⚠️  Connected but Error: "
              ++ String.take (String.mk (List.replicate 60 'x')) 50
      ∧ (String.take (String.mk (List.replicate 60 'x')) 50).length ≤ 50 := by
  have h := test_database_total
    (DBConn.conn none (.error (String.mk (List.replicate 60 'x')))) ⟨none, none⟩
  exact ⟨h.1, h.2 none (String.mk (List.replicate 60 'x')) rfl⟩

/-- C10 (amended): in every `/test` response the `database_url` and
`database_name` fields are determined solely by the truthiness of the
`DATABASE_URL` and `DATABASE_NAME` environment variables — `"✅ Set"`
when set to a non-empty string, `"❌ Not Set"` when unset or empty — and
are independent of the connection state: the final unconditional
overwrite discards the connection-derived values assigned earlier. -/
theorem test_database_env_flags (c : DBConn) (env : Env) :
    (test_database c env).database_url
        = some (if envTruthy env.database_url then "✅ Set" else "❌ Not Set")
      ∧ (test_database c env).database_name
        = some (if envTruthy env.database_name then "✅ Set" else "❌ Not Set") := by
  cases c with
  | noDb => exact ⟨rfl, rfl⟩
  | conn name listNames => cases listNames <;> exact ⟨rfl, rfl⟩

/-- Counterexample to C10 as stated: with `DATABASE_URL` present in the
environment but bound to the empty string (set, yet falsy in Python),
the handler reports `"❌ Not Set"` where the claim promises
`"✅ Set"`. -/
theorem test_database_env_flags_cex :
    (some "" : Option String) ≠ none
      ∧ (test_database DBConn.noDb ⟨some "", none⟩).database_url
          = some "❌ Not Set" :=
  ⟨by simp, rfl⟩

end ECom
